import Mathlib

/-!
Verification development for the chat-widget script (`scripts.js`).

The script is shallowly embedded: the retry-wrapped fetch loop, the
send-message dispatch, the transcript renderer with its bot-text
formatter, the session-identity helper and the clear-chat handlers are
translated into executable Lean definitions, and the specification's
claims are settled as theorems about those definitions.

Conventions of the embedding:
* a JavaScript exception value is a `JsError` (its `name` and `message`);
* machine-level effects (DOM appends, timers, network attempts, input
  enabling) are recorded as explicit `Event` values in the order the
  script performs them;
* the network is an oracle giving the result of each attempt.
-/

/-- A JavaScript error value: its `name` and `message` properties. -/
structure JsError where
  name : String
  message : String
deriving DecidableEq

/-- Result of one network attempt inside `fetchWithRetry`: either the
`fetch` promise resolves with a response of some status, or it rejects
with an error. -/
inductive AttemptResult where
  | response (status : Nat)
  | failure (e : JsError)
deriving DecidableEq

/-- The settled outcome of `fetchWithRetry`: a returned response status
or a propagated (thrown) error. -/
inductive FetchOutcome where
  | returned (status : Nat)
  | thrown (e : JsError)
deriving DecidableEq

/-- Observable trace of one `fetchWithRetry` call: the outcome (`none`
models the loop exiting without a single iteration, i.e. `undefined`),
the number of attempts made, and the list of inter-attempt delays in
milliseconds. -/
structure FetchTrace where
  outcome : Option FetchOutcome
  attempts : Nat
  delays : List Nat
deriving DecidableEq

/-- `const MAX_RETRIES = 3;` -/
def MAX_RETRIES : Nat := 3

/-- `const RETRY_DELAY = 2000;` -/
def RETRY_DELAY : Nat := 2000

/-- `response.ok`: status in 200..299. -/
def responseOk (s : Nat) : Bool := decide (200 ≤ s) && decide (s < 300)

/-- `response.status >= 400 && response.status < 500`. -/
def clientError (s : Nat) : Bool := decide (400 ≤ s) && decide (s < 500)

/-- The body of `fetchWithRetry`'s `for (let i = 0; i < retries; i++)`
loop. `i` is the loop index; `fuel` is `retries - i`, so `fuel = 0`
exactly when the loop condition fails. Each iteration consults the
oracle for attempt `i`:
* a successful or 4xx response is returned at once;
* any other response is returned if `i = retries - 1`, otherwise the
  script sleeps `RETRY_DELAY` and continues;
* a rejected fetch is rethrown if `i = retries - 1` or the error is an
  `AbortError`, otherwise the script sleeps `RETRY_DELAY` and continues. -/
def fetchLoop (oracle : Nat → AttemptResult) (retries : Nat) : Nat → Nat → FetchTrace
  | _, 0 => ⟨none, 0, []⟩
  | i, fuel + 1 =>
    match oracle i with
    | .response s =>
      if responseOk s || clientError s then
        ⟨some (.returned s), 1, []⟩
      else if i < retries - 1 then
        let t := fetchLoop oracle retries (i + 1) fuel
        ⟨t.outcome, t.attempts + 1, RETRY_DELAY :: t.delays⟩
      else
        ⟨some (.returned s), 1, []⟩
    | .failure e =>
      if i < retries - 1 && !(e.name = "AbortError" : Bool) then
        let t := fetchLoop oracle retries (i + 1) fuel
        ⟨t.outcome, t.attempts + 1, RETRY_DELAY :: t.delays⟩
      else
        ⟨some (.thrown e), 1, []⟩

/-- `async function fetchWithRetry(url, options, retries = MAX_RETRIES)`:
run the retry loop from `i = 0`. -/
def fetchWithRetry (oracle : Nat → AttemptResult) (retries : Nat) : FetchTrace :=
  fetchLoop oracle retries 0 retries

theorem fetchLoop_attempts_le (oracle : Nat → AttemptResult) (retries : Nat) :
    ∀ fuel i, (fetchLoop oracle retries i fuel).attempts ≤ fuel := by
  intro fuel
  induction fuel with
  | zero => intro i; simp [fetchLoop]
  | succ n ih =>
    intro i
    simp only [fetchLoop]
    cases oracle i with
    | response s =>
      by_cases h1 : (responseOk s || clientError s) = true
      · simp [h1]
      · simp only [h1, if_false, Bool.false_eq_true]
        by_cases h2 : i < retries - 1
        · simpa [h2] using Nat.succ_le_succ (ih (i + 1))
        · simp [h2]
    | failure e =>
      by_cases h2 : (decide (i < retries - 1) && !(e.name = "AbortError" : Bool)) = true
      · simpa [h2] using Nat.succ_le_succ (ih (i + 1))
      · simp [h2]

theorem fetchLoop_delays_fixed (oracle : Nat → AttemptResult) (retries : Nat) :
    ∀ fuel i, ∀ d ∈ (fetchLoop oracle retries i fuel).delays, d = RETRY_DELAY := by
  intro fuel
  induction fuel with
  | zero => intro i; simp [fetchLoop]
  | succ n ih =>
    intro i
    simp only [fetchLoop]
    cases oracle i with
    | response s =>
      by_cases h1 : (responseOk s || clientError s) = true
      · simp [h1]
      · simp only [h1, if_false, Bool.false_eq_true]
        by_cases h2 : i < retries - 1
        · intro d hd
          simp only [h2, if_true] at hd
          simp only [List.mem_cons] at hd
          rcases hd with rfl | hd
          · rfl
          · exact ih (i + 1) d hd
        · simp [h2]
    | failure e =>
      by_cases h2 : (decide (i < retries - 1) && !(e.name = "AbortError" : Bool)) = true
      · intro d hd
        simp only [h2, if_true] at hd
        simp only [List.mem_cons] at hd
        rcases hd with rfl | hd
        · rfl
        · exact ih (i + 1) d hd
      · simp [h2]

/-- Claim C1: the retry loop makes at most `MAX_RETRIES = 3` attempts; a
4xx or successful first response is returned immediately with exactly one
attempt and no delay; three consecutive 500 responses yield exactly 3
attempts with a fixed 2000 ms delay between consecutive attempts and the
last response returned; an `AbortError` rejection is propagated at once
without retry; three consecutive non-abort transport failures yield
exactly 3 attempts and the last error propagated; every inter-attempt
delay equals 2000 ms. -/
theorem c1_retry_policy (oracle : Nat → AttemptResult) :
    (fetchWithRetry oracle MAX_RETRIES).attempts ≤ 3 ∧
    (∀ d ∈ (fetchWithRetry oracle MAX_RETRIES).delays, d = 2000) ∧
    (∀ s, oracle 0 = .response s → (responseOk s || clientError s) = true →
      fetchWithRetry oracle MAX_RETRIES = ⟨some (.returned s), 1, []⟩) ∧
    ((∀ i, i < 3 → oracle i = .response 500) →
      fetchWithRetry oracle MAX_RETRIES = ⟨some (.returned 500), 3, [2000, 2000]⟩) ∧
    (∀ e, oracle 0 = .failure e → e.name = "AbortError" →
      fetchWithRetry oracle MAX_RETRIES = ⟨some (.thrown e), 1, []⟩) ∧
    (∀ e, (∀ i, i < 3 → oracle i = .failure e) → e.name ≠ "AbortError" →
      fetchWithRetry oracle MAX_RETRIES = ⟨some (.thrown e), 3, [2000, 2000]⟩) := by
  refine ⟨fetchLoop_attempts_le oracle MAX_RETRIES MAX_RETRIES 0,
    fetchLoop_delays_fixed oracle MAX_RETRIES MAX_RETRIES 0, ?_, ?_, ?_, ?_⟩
  · intro s h0 hterm
    simp [fetchWithRetry, MAX_RETRIES, fetchLoop, h0, hterm]
  · intro h
    have h0 := h 0 (by norm_num)
    have h1 := h 1 (by norm_num)
    have h2 := h 2 (by norm_num)
    simp [fetchWithRetry, MAX_RETRIES, fetchLoop, h0, h1, h2, responseOk, clientError,
      RETRY_DELAY]
  · intro e h0 hname
    simp [fetchWithRetry, MAX_RETRIES, fetchLoop, h0, hname]
  · intro e h hname
    have h0 := h 0 (by norm_num)
    have h1 := h 1 (by norm_num)
    have h2 := h 2 (by norm_num)
    simp [fetchWithRetry, MAX_RETRIES, fetchLoop, h0, h1, h2, hname, RETRY_DELAY]

/-- Witness for C1 at concrete oracles: an all-500 oracle exhausts the
cap with 3 attempts, and a single-400 oracle stops after 1 attempt. -/
theorem c1_retry_policy_witness :
    fetchWithRetry (fun _ => .response 500) MAX_RETRIES =
      ⟨some (.returned 500), 3, [2000, 2000]⟩ ∧
    fetchWithRetry (fun _ => .response 400) MAX_RETRIES =
      ⟨some (.returned 400), 1, []⟩ := by
  constructor
  · exact (c1_retry_policy (fun _ => .response 500)).2.2.2.1 (fun i _ => rfl)
  · exact (c1_retry_policy (fun _ => .response 400)).2.2.1 400 rfl (by decide)

/-!
The transcript renderer (`addMessage`) and its bot-text formatter.

The formatter is the chain of string transforms applied to bot text:
`.replace(/^#\s+(.+)$/gm, ...)`, `.replace(/\*\*(.*?)\*\*/g, ...)`,
`.replace(/^-\s+(.+)$/gm, ...)`, `.split('\n\n').join('</p><p>')`,
`.split('\n').join('<br>')`, then wrapping in `<p>...</p>`.
Strings are handled as their character lists; the regex transforms are
modelled for texts whose only line terminator is `'\n'` (the `m`-flag
anchors then coincide with `'\n'` boundaries, and `.` excludes `'\n'`).
-/

/-- JavaScript `\s` on the characters that matter inside these texts. -/
def jsWs (c : Char) : Bool :=
  c = ' ' || c = '\t' || c = '\n' || c = '\r' || c = '\x0b' || c = '\x0c'

/-- Split a character list at every occurrence of `sep`
(JavaScript `String.prototype.split` with a one-character separator). -/
def splitOnChar (sep : Char) : List Char → List (List Char)
  | [] => [[]]
  | c :: rest =>
    if c = sep then [] :: splitOnChar sep rest
    else
      match splitOnChar sep rest with
      | h :: t => (c :: h) :: t
      | [] => [[c]]

/-- Matching of `\s+(.+)$` against the remainder `t` of a line (what
follows the leading `#` or `-`). The greedy `\s+` takes the maximal
whitespace run; if nothing is left for `(.+)`, backtracking hands it the
last whitespace character. Returns the text captured by `(.+)`, or
`none` when the regex does not match. -/
def lineMarkBody (t : List Char) : Option (List Char) :=
  match t with
  | [] => none
  | c :: rest =>
    if jsWs c && !rest.isEmpty then
      let r := (c :: rest).dropWhile jsWs
      if r.isEmpty then some [(c :: rest).getLastD c] else some r
    else none

/-- `'<strong>' + content + '</strong>'`. -/
def strongWrap (content : List Char) : List Char :=
  "<strong>".data ++ content ++ "</strong>".data

/-- One line under `.replace(/^#\s+(.+)$/gm, '<strong>$1</strong>')`. -/
def headerLine (line : List Char) : List Char :=
  match line with
  | [] => []
  | c :: t =>
    if c = '#' then
      match lineMarkBody t with
      | some content => strongWrap content
      | none => c :: t
    else c :: t

/-- One line under `.replace(/^-\s+(.+)$/gm, '• $1')`. -/
def bulletLine (line : List Char) : List Char :=
  match line with
  | [] => []
  | c :: t =>
    if c = '-' then
      match lineMarkBody t with
      | some content => '•' :: ' ' :: content
      | none => c :: t
    else c :: t

/-- Apply a per-line transform to every `'\n'`-separated line, as a
`g`+`m` anchored regex replace does. -/
def perLineMap (f : List Char → List Char) (l : List Char) : List Char :=
  List.intercalate ['\n'] ((splitOnChar '\n' l).map f)

/-- Scan for the lazy close of `\*\*(.*?)\*\*`: the first `**` reachable
without crossing a `'\n'` (`.` does not match a line break). Returns the
captured content and the remainder after the closing `**`. -/
def findClose (acc : List Char) : List Char → Option (List Char × List Char)
  | [] => none
  | c :: rest =>
    if c = '\n' then none
    else if c = '*' then
      match rest with
      | c2 :: rest2 =>
        if c2 = '*' then some (acc.reverse, rest2) else findClose (c :: acc) rest
      | [] => none
    else findClose (c :: acc) rest

/-- The global scan of `.replace(/\*\*(.*?)\*\*/g, '<strong>$1</strong>')`,
with fuel (one unit per character position examined; `l.length` always
suffices, and exhausted fuel leaves the rest untouched). On `**` with a
reachable close, emit the wrapped content and continue after it; on any
other character (or an unclosed `**`, where the engine advances one
position), emit the character and continue. -/
def boldGo (fuel : Nat) (l : List Char) : List Char :=
  match fuel with
  | 0 => l
  | fuel + 1 =>
    match l with
    | [] => []
    | c :: rest =>
      if c = '*' then
        match rest with
        | c2 :: rest2 =>
          if c2 = '*' then
            match findClose [] rest2 with
            | some pr => strongWrap pr.1 ++ boldGo fuel pr.2
            | none => c :: boldGo fuel rest
          else c :: boldGo fuel rest
        | [] => c :: boldGo fuel rest
      else c :: boldGo fuel rest

/-- `.split('\n\n')`, scanning left to right for non-overlapping
occurrences of the two-character separator. -/
def splitDoubleNl : List Char → List (List Char)
  | [] => [[]]
  | c :: rest =>
    if c = '\n' then
      match rest with
      | c2 :: rest2 =>
        if c2 = '\n' then [] :: splitDoubleNl rest2
        else
          match splitDoubleNl (c2 :: rest2) with
          | h :: t => (c :: h) :: t
          | [] => [[c]]
      | [] => [['\n']]
    else
      match splitDoubleNl rest with
      | h :: t => (c :: h) :: t
      | [] => [[c]]

/-- `.split('\n').join('<br>')`: with a one-character separator this is
exactly the replacement of every `'\n'` by `<br>`. -/
def replaceNlBr : List Char → List Char
  | [] => []
  | c :: rest => (if c = '\n' then "<br>".data else [c]) ++ replaceNlBr rest

/-- `.replace(/^#\s+(.+)$/gm, '<strong>$1</strong>')` on a string. -/
def headerStep (s : String) : String := ⟨perLineMap headerLine s.data⟩

/-- `.replace(/\*\*(.*?)\*\*/g, '<strong>$1</strong>')` on a string. -/
def boldStep (s : String) : String := ⟨boldGo s.data.length s.data⟩

/-- `.replace(/^-\s+(.+)$/gm, '• $1')` on a string. -/
def bulletStep (s : String) : String := ⟨perLineMap bulletLine s.data⟩

/-- `.split('\n\n').join('</p><p>')` on a string. -/
def paragraphStep (s : String) : String :=
  ⟨List.intercalate "</p><p>".data (splitDoubleNl s.data)⟩

/-- `.split('\n').join('<br>')` on a string. -/
def lineBreakStep (s : String) : String := ⟨replaceNlBr s.data⟩

/-- The formatted markup assigned to `messageText.innerHTML` for a bot
message: the five transforms in the source's order, wrapped in a
paragraph. -/
def formatBotText (s : String) : String :=
  "<p>" ++ lineBreakStep (paragraphStep (bulletStep (boldStep (headerStep s)))) ++ "</p>"

/-- The rendered `message-text` element built by `addMessage`: bot text
is assigned as markup via `innerHTML`; any other sender's text is set
literally via `textContent`. -/
structure RenderedMessage where
  sender : String
  html : Option String
  plain : Option String
deriving DecidableEq

/-- The rendering branch of `addMessage(text, sender)`. -/
def renderMessage (text sender : String) : RenderedMessage :=
  if sender = "bot" then ⟨sender, some (formatBotText text), none⟩
  else ⟨sender, none, some text⟩

/-!
The dispatch `sendMessage()`, embedded as an explicit event trace.

A dispatch is parametrised by the raw input string, the
`window.navigator.onLine` flag, and the settled result of the
`fetchWithRetry` call (`FetchResult`): a response with its status and
the result of `response.json()`, or a rejection. The trace records, in
program order, every transcript append, input-control toggle, typing
indicator action, timer action and network call the function performs.
-/

/-- One observable effect performed by `sendMessage` /
`setLoadingState`. -/
inductive Event where
  | appendMessage (text sender : String)
  | clearInput
  | setDisabled (b : Bool)
  | appendTyping
  | startDotTimer
  | fetchCall
  | stopDotTimer
  | removeTyping
deriving DecidableEq

/-- The JSON body of a `/api/chat` response: optional `response` and
`error` fields (absent and empty-string fields are both falsy in the
script's checks). -/
structure ChatBody where
  response : Option String
  error : Option String
deriving DecidableEq

/-- The settled result of the awaited `fetchWithRetry(...)` call inside
`sendMessage`: a resolved response carrying its status and the result of
`response.json()` (which may itself throw), or a rejection. -/
inductive FetchResult where
  | resp (status : Nat) (body : Except JsError ChatBody)
  | exn (e : JsError)

/-- JavaScript `String.prototype.trim()` over the whitespace characters
used in this development. -/
def jsTrim (s : String) : String :=
  ⟨((s.data.dropWhile jsWs).reverse.dropWhile jsWs).reverse⟩

/-- JavaScript `hay.includes(needle)`. -/
def strIncludes (hay needle : String) : Bool :=
  hay.data.tails.any (fun t => needle.data.isPrefixOf t)

/-- The fixed fallback bot notice for an ok response without a usable
`response` field. -/
def fallbackBotText : String :=
  "I received your message but couldn\x27t generate a proper response. Please try again."

/-- The initial generic failure text. -/
def apologizeText : String :=
  "I apologize, but I\x27m having trouble responding right now."

/-- The no-connectivity failure text. -/
def offlineText : String :=
  "Network connection lost. Please check your internet connection and try again."

/-- The service-unreachable failure text. -/
def unreachableText : String :=
  "Unable to connect to the AI service. Please make sure the server is running on localhost:3001."

/-- The model-warming-up failure text. -/
def warmingText : String :=
  "The AI model is starting up. Please wait a moment and try again."

/-- The rate-limited failure text. -/
def rateLimitText : String :=
  "Too many requests. Please wait a moment before sending another message."

/-- `responseData.error || Server error: status` — the message of the
error thrown for a non-ok response. -/
def serverErrorMessage (status : Nat) (body : ChatBody) : String :=
  match body.error with
  | some t => if t = "" then "Server error: " ++ toString status else t
  | none => "Server error: " ++ toString status

/-- The `catch` block's classification of a terminal failure into the
user-facing message, in the source's priority order. -/
def classifyError (onLine : Bool) (e : JsError) : String :=
  if !onLine then offlineText
  else if strIncludes e.message "Failed to fetch" || e.name = "TypeError" then unreachableText
  else if strIncludes e.message "loading" then warmingText
  else if strIncludes e.message "rate limit" then rateLimitText
  else if !(e.message = "" : Bool) then "Error: " ++ e.message
  else apologizeText

/-- Effects of `setLoadingState(true)`: disable the controls, append the
typing indicator, start its dot-animation interval. -/
def loadingOnEvents : List Event :=
  [.setDisabled true, .appendTyping, .startDotTimer]

/-- Effects of `setLoadingState(false)`: re-enable the controls, clear
the dot-animation interval, remove the typing indicator. -/
def loadingOffEvents : List Event :=
  [.setDisabled false, .stopDotTimer, .removeTyping]

/-- The `try` block of `sendMessage` after the loading state is set: the
events it performs, and the error it throws (if any), which the `catch`
block will receive. -/
def tryBody (fr : FetchResult) : List Event × Option JsError :=
  match fr with
  | .exn e => ([.fetchCall], some e)
  | .resp status body =>
    match body with
    | .error e => ([.fetchCall], some e)
    | .ok data =>
      if responseOk status then
        match data.response with
        | some s =>
          if s = "" then ([.fetchCall, .appendMessage fallbackBotText "bot"], none)
          else ([.fetchCall, .appendMessage s "bot"], none)
        | none => ([.fetchCall, .appendMessage fallbackBotText "bot"], none)
      else ([.fetchCall], some ⟨"Error", serverErrorMessage status data⟩)

/-- `async function sendMessage()`: trim the input; an empty result is a
silent no-op; otherwise append the user entry, clear the input, enter
the loading state, run the try/catch body, and (in `finally`) leave the
loading state. -/
def sendMessage (input : String) (onLine : Bool) (fr : FetchResult) : List Event :=
  let message := jsTrim input
  if message = "" then []
  else
    let tb := tryBody fr
    let catchEvents :=
      match tb.2 with
      | none => ([] : List Event)
      | some e => [Event.appendMessage (classifyError onLine e) "error"]
    [Event.appendMessage message "user", Event.clearInput]
      ++ loadingOnEvents ++ tb.1 ++ catchEvents ++ loadingOffEvents

/-- Index of the first occurrence of an event in a trace. -/
def eventIdx (tr : List Event) (e : Event) : Nat :=
  tr.findIdx (fun x => x = e)

/-- An outcome entry: a transcript append whose sender is the assistant
(`bot`) or the error sender. -/
def isOutcomeEvent : Event → Bool
  | .appendMessage _ s => s = "bot" || s = "error"
  | _ => false

theorem tryBody_shape (fr : FetchResult) :
    ((tryBody fr).2 = none ∧ ∃ t, (tryBody fr).1 = [.fetchCall, .appendMessage t "bot"]) ∨
    (∃ e, (tryBody fr).2 = some e ∧ (tryBody fr).1 = [.fetchCall]) := by
  cases fr with
  | exn e => exact Or.inr ⟨e, rfl, rfl⟩
  | resp status body =>
    cases body with
    | error e => exact Or.inr ⟨e, rfl, rfl⟩
    | ok data =>
      by_cases hok : responseOk status = true
      · cases hr : data.response with
        | none => exact Or.inl ⟨by simp [tryBody, hok, hr], fallbackBotText, by simp [tryBody, hok, hr]⟩
        | some s =>
          by_cases hs : s = ""
          · exact Or.inl ⟨by simp [tryBody, hok, hr, hs], fallbackBotText,
              by simp [tryBody, hok, hr, hs]⟩
          · exact Or.inl ⟨by simp [tryBody, hok, hr, hs], s, by simp [tryBody, hok, hr, hs]⟩
      · exact Or.inr ⟨⟨"Error", serverErrorMessage status data⟩,
          by simp [tryBody, hok], by simp [tryBody, hok]⟩

/-- Counterexample to claim C2 as stated: on a successful dispatch of
`"hi"` answered with reply `"X"`, the typing indicator is not removed
before the assistant entry is appended — the outcome entry comes first
(the removal happens in the `finally` block, after the `try` body has
already appended the reply). -/
theorem c2_typing_removal_counterexample :
    ¬ (eventIdx (sendMessage "hi" true (.resp 200 (.ok ⟨some "X", none⟩))) .removeTyping <
       eventIdx (sendMessage "hi" true (.resp 200 (.ok ⟨some "X", none⟩)))
         (.appendMessage "X" "bot")) := by decide

/-- Claim C2, amended: for every dispatch that settles, the typing
indicator is removed and its dot-animation timer cancelled exactly once,
but only *after* the real outcome entry (assistant reply, fallback
notice, or error message) has been appended: the trace ends with the
loading-off block (re-enable, cancel timer, remove indicator), and no
removal or timer cancellation occurs earlier. -/
theorem c2_typing_removed_after_outcome (input : String) (onLine : Bool) (fr : FetchResult)
    (h : jsTrim input ≠ "") :
    ∃ pre, sendMessage input onLine fr = pre ++ loadingOffEvents ∧
      Event.removeTyping ∉ pre ∧ Event.stopDotTimer ∉ pre ∧
      ∃ t s, Event.appendMessage t s ∈ pre ∧ (s = "bot" ∨ s = "error") := by
  rcases tryBody_shape fr with ⟨h2, t, ht⟩ | ⟨e, h2, ht⟩
  · refine ⟨[Event.appendMessage (jsTrim input) "user", Event.clearInput]
      ++ loadingOnEvents ++ (tryBody fr).1, ?_, ?_, ?_, t, "bot", ?_, Or.inl rfl⟩
    · simp [sendMessage, h, h2, loadingOnEvents]
    · simp [loadingOnEvents, ht]
    · simp [loadingOnEvents, ht]
    · simp [ht]
  · refine ⟨[Event.appendMessage (jsTrim input) "user", Event.clearInput]
      ++ loadingOnEvents ++ (tryBody fr).1
      ++ [Event.appendMessage (classifyError onLine e) "error"], ?_, ?_, ?_,
      classifyError onLine e, "error", ?_, Or.inr rfl⟩
    · simp [sendMessage, h, h2, loadingOnEvents]
    · simp [loadingOnEvents, ht]
    · simp [loadingOnEvents, ht]
    · simp [ht]

/-- Witness for the amended C2 on a concrete successful dispatch. -/
theorem c2_typing_removed_after_outcome_witness :
    ∃ pre, sendMessage "hi" true (.resp 200 (.ok ⟨some "X", none⟩)) = pre ++ loadingOffEvents ∧
      Event.removeTyping ∉ pre ∧ Event.stopDotTimer ∉ pre ∧
      ∃ t s, Event.appendMessage t s ∈ pre ∧ (s = "bot" ∨ s = "error") :=
  c2_typing_removed_after_outcome "hi" true (.resp 200 (.ok ⟨some "X", none⟩)) (by decide)

/-- Claim C3: a dispatch with non-empty (after trimming) input never
propagates an exception — the embedding of `sendMessage` is a total
function because every error the `try` body raises is consumed by the
`catch` block — and every such dispatch appends exactly one outcome
entry (assistant reply, fallback notice, or error message) and
re-enables the input controls. -/
theorem c3_dispatch_total (input : String) (onLine : Bool) (fr : FetchResult)
    (h : jsTrim input ≠ "") :
    (sendMessage input onLine fr).countP (fun e => isOutcomeEvent e) = 1 ∧
    Event.setDisabled false ∈ sendMessage input onLine fr := by
  rcases tryBody_shape fr with ⟨h2, t, ht⟩ | ⟨e, h2, ht⟩ <;>
    simp [sendMessage, h, h2, ht, loadingOnEvents, loadingOffEvents, isOutcomeEvent]

/-- Witness for C3: a malformed-body dispatch (json parse failure)
still yields exactly one outcome entry and re-enabled controls. -/
theorem c3_dispatch_total_witness :
    (sendMessage "hello" true (.resp 200 (.error ⟨"SyntaxError", "Unexpected token"⟩))).countP
        (fun e => isOutcomeEvent e) = 1 ∧
    Event.setDisabled false ∈
      sendMessage "hello" true (.resp 200 (.error ⟨"SyntaxError", "Unexpected token"⟩)) :=
  c3_dispatch_total "hello" true (.resp 200 (.error ⟨"SyntaxError", "Unexpected token"⟩))
    (by decide)

/-- Claim C5: the terminal-failure message is chosen in the source's
priority order — offline wins over everything; then a transport-level
failure (message containing `Failed to fetch`, or a `TypeError`); then a
message mentioning `loading` (model warming up); then one mentioning
`rate limit`; otherwise the generic `Error:` message carrying the
underlying error's message text. -/
theorem c5_failure_classification (e : JsError) :
    classifyError false e = offlineText ∧
    ((strIncludes e.message "Failed to fetch" || e.name = "TypeError") = true →
      classifyError true e = unreachableText) ∧
    ((strIncludes e.message "Failed to fetch" || e.name = "TypeError") = false →
      strIncludes e.message "loading" = true →
      classifyError true e = warmingText) ∧
    ((strIncludes e.message "Failed to fetch" || e.name = "TypeError") = false →
      strIncludes e.message "loading" = false →
      strIncludes e.message "rate limit" = true →
      classifyError true e = rateLimitText) ∧
    ((strIncludes e.message "Failed to fetch" || e.name = "TypeError") = false →
      strIncludes e.message "loading" = false →
      strIncludes e.message "rate limit" = false →
      e.message ≠ "" →
      classifyError true e = "Error: " ++ e.message) := by
  refine ⟨by simp [classifyError], ?_, ?_, ?_, ?_⟩
  · intro h1; simp [classifyError, h1]
  · intro h1 h2; simp [classifyError, h1, h2]
  · intro h1 h2 h3; simp [classifyError, h1, h2, h3]
  · intro h1 h2 h3 h4; simp [classifyError, h1, h2, h3, h4]

/-- Witness for C5 at concrete errors: a rate-limit message and an
offline failure are classified as claimed. -/
theorem c5_failure_classification_witness :
    classifyError true ⟨"Error", "rate limit exceeded"⟩ = rateLimitText ∧
    classifyError false ⟨"Error", "anything"⟩ = offlineText := by
  constructor
  · exact (c5_failure_classification ⟨"Error", "rate limit exceeded"⟩).2.2.2.1
      (by decide) (by decide) (by decide)
  · exact (c5_failure_classification ⟨"Error", "anything"⟩).1

/-- Claim C6: an input that is empty or consists only of whitespace is a
silent local no-op — the dispatch trace is empty: no network call, no
transcript entry of any sender, no loading state. -/
theorem c6_blank_input_noop (input : String) (onLine : Bool) (fr : FetchResult)
    (h : ∀ c ∈ input.data, jsWs c = true) :
    sendMessage input onLine fr = [] := by
  have h1 : input.data.dropWhile jsWs = [] := List.dropWhile_eq_nil_iff.mpr h
  have ht : jsTrim input = "" := by
    unfold jsTrim
    rw [h1]
    rfl
  simp [sendMessage, ht]

/-- Witness for C6 on a concrete whitespace-only input. -/
theorem c6_blank_input_noop_witness :
    sendMessage " \t\n " true (.resp 200 (.ok ⟨some "X", none⟩)) = [] :=
  c6_blank_input_noop " \t\n " true (.resp 200 (.ok ⟨some "X", none⟩)) (by decide)

/-!
The transcript as a sequence of entries, and the widget operations that
touch it: `addMessage` (append), and the `clear-chat` / `new-chat`
click handlers, which replace the whole transcript with a single
greeting entry via `innerHTML`.
-/

/-- A transcript entry: text, sender tag, and creation timestamp. -/
structure Entry where
  text : String
  sender : String
  time : String
deriving DecidableEq

/-- The operations of the widget that touch the transcript. -/
inductive WidgetOp where
  | add (text sender time : String)
  | clearChat
  | newChat
deriving DecidableEq

/-- The greeting entry the `clear-chat` handler writes. -/
def clearGreeting : Entry :=
  ⟨"👋 Hello! I\x27m Botlynx. How can I help you today?", "bot", "Just now"⟩

/-- The greeting entry the `new-chat` handler writes. -/
def newChatGreeting : Entry :=
  ⟨"👋 Hello! I\x27m Botlynx. What would you like to talk about today?", "bot", "Just now"⟩

/-- Effect of each widget operation on the transcript: `addMessage`
appends (`chatMessages.appendChild`); the two reset handlers overwrite
`chatMessages.innerHTML` with one greeting entry. -/
def applyOp (t : List Entry) : WidgetOp → List Entry
  | .add text sender time => t ++ [⟨text, sender, time⟩]
  | .clearChat => [clearGreeting]
  | .newChat => [newChatGreeting]

/-- Counterexample to claim C7 as stated: the `clear-chat` handler
applied to a one-entry transcript neither leaves it unchanged nor
appends after it — it removes the existing entry and replaces the whole
transcript with the greeting. -/
theorem c7_append_only_counterexample :
    ¬ (applyOp [⟨"hi", "user", "10:00"⟩] .clearChat = [⟨"hi", "user", "10:00"⟩] ∨
       ∃ e, applyOp [⟨"hi", "user", "10:00"⟩] .clearChat = [⟨"hi", "user", "10:00"⟩] ++ [e]) := by
  rintro (h | ⟨e, he⟩)
  · exact absurd h (by decide)
  · have hl := congrArg List.length he
    simp [applyOp] at hl

/-- Claim C7, amended: `addMessage` is append-only — it appends the new
entry strictly after all existing entries and leaves every existing
entry unchanged — but the `clear-chat` and `new-chat` handlers are not:
each replaces the entire transcript with a single fresh greeting entry,
discarding all previously appended entries. -/
theorem c7_append_only_amended (t : List Entry) (text sender time : String) :
    applyOp t (.add text sender time) = t ++ [⟨text, sender, time⟩] ∧
    (applyOp t (.add text sender time)).take t.length = t ∧
    applyOp t .clearChat = [clearGreeting] ∧
    applyOp t .newChat = [newChatGreeting] := by
  refine ⟨rfl, ?_, rfl, rfl⟩
  simp [applyOp]

/-!
The session-identity initialisation (module top level, lines 46-50):
read `sessionStorage.getItem('chatSessionId')`; if the result is falsy,
generate a fresh identifier and store it. There is no `try`/`catch`
around either storage access.
-/

/-- A model of `sessionStorage` as seen by the initialisation code: the
result of the `getItem` read and of a `setItem` write (either may
throw). -/
structure StorageModel where
  getResult : Except JsError (Option String)
  setResult : String → Except JsError Unit

/-- The session-identity initialisation against a storage model,
propagating any exception a storage access throws (as the unprotected
source does). `fresh` is the identifier `generateSessionId()` would
produce. -/
def getOrCreateSessionId (st : StorageModel) (fresh : String) : Except JsError String := do
  let stored ← st.getResult
  match stored with
  | some s =>
    if s = "" then do
      st.setResult fresh
      pure fresh
    else pure s
  | none => do
    st.setResult fresh
    pure fresh

/-- A storage whose read throws (e.g. `SecurityError` when site data is
blocked). -/
def storageDenied : StorageModel :=
  ⟨.error ⟨"SecurityError", "The operation is insecure."⟩, fun _ => .ok ()⟩

/-- Counterexample to claim C8 as stated: with a storage whose read
throws, the initialisation does not yield any identifier — it
propagates the exception. -/
theorem c8_fail_safe_counterexample :
    ¬ ∃ id, getOrCreateSessionId storageDenied "session_abc_1" = .ok id := by
  rintro ⟨id, h⟩
  have hv : getOrCreateSessionId storageDenied "session_abc_1"
      = .error ⟨"SecurityError", "The operation is insecure."⟩ := rfl
  rw [hv] at h
  exact Except.noConfusion h

/-- Claim C8, amended: when both storage accesses succeed the
initialisation yields a usable (non-empty, given a non-empty fresh
identifier) session identifier; but when reading — or writing, in the
absent-value case — throws, the exception propagates out of module
initialisation: the source has no fallback. -/
theorem c8_storage_amended (stored : Option String) (fresh : String) (e : JsError)
    (hf : fresh ≠ "") :
    (∃ id, getOrCreateSessionId ⟨.ok stored, fun _ => .ok ()⟩ fresh = .ok id ∧ id ≠ "") ∧
    getOrCreateSessionId ⟨.error e, fun _ => .ok ()⟩ fresh = .error e ∧
    getOrCreateSessionId ⟨.ok none, fun _ => .error e⟩ fresh = .error e := by
  refine ⟨?_, rfl, rfl⟩
  cases stored with
  | none => exact ⟨fresh, rfl, hf⟩
  | some s =>
    have hrw : getOrCreateSessionId ⟨.ok (some s), fun _ => .ok ()⟩ fresh
        = if s = "" then .ok fresh else .ok s := rfl
    by_cases hs : s = ""
    · exact ⟨fresh, by rw [hrw, if_pos hs], hf⟩
    · exact ⟨s, by rw [hrw, if_neg hs], hs⟩

/-- Witness for the amended C8 at a concrete storage and identifier. -/
theorem c8_storage_amended_witness :
    (∃ id, getOrCreateSessionId ⟨.ok none, fun _ => .ok ()⟩ "session_abc_1" = .ok id ∧
      id ≠ "") ∧
    getOrCreateSessionId ⟨.error ⟨"SecurityError", "denied"⟩, fun _ => .ok ()⟩ "session_abc_1"
      = .error ⟨"SecurityError", "denied"⟩ ∧
    getOrCreateSessionId ⟨.ok none, fun _ => .error ⟨"SecurityError", "denied"⟩⟩ "session_abc_1"
      = .error ⟨"SecurityError", "denied"⟩ :=
  c8_storage_amended none "session_abc_1" ⟨"SecurityError", "denied"⟩ (by decide)

/-!
`generateSessionId()` and the stability of the stored identifier.
-/

/-- `'session_' + Math.random().toString(36).substr(2, 9) + '_' + Date.now()`:
`rand` stands for the random base-36 token, `now` for the timestamp. -/
def generateSessionId (rand : String) (now : Nat) : String :=
  "session_" ++ rand ++ "_" ++ toString now

/-- The get-or-create step as a storage-state transformer (the
storage-available path): returns the identifier the module variable
receives and the stored value afterwards. -/
def sessionIdInit (stored : Option String) (fresh : String) : String × Option String :=
  match stored with
  | some s => if s = "" then (fresh, some fresh) else (s, some s)
  | none => (fresh, some fresh)

theorem underscoreSplit (d1 d2 : List Char) :
    ∀ l1 l2 : List Char, (∀ c ∈ l1, c ≠ '_') → (∀ c ∈ l2, c ≠ '_') →
      l1 ++ '_' :: d1 = l2 ++ '_' :: d2 → l1 = l2 := by
  intro l1
  induction l1 with
  | nil =>
    intro l2 _ h2 h
    cases l2 with
    | nil => rfl
    | cons c2 t2 =>
      simp only [List.nil_append, List.cons_append, List.cons.injEq] at h
      exact absurd h.1.symm (h2 c2 (by simp))
  | cons c t ih =>
    intro l2 h1 h2 h
    cases l2 with
    | nil =>
      simp only [List.nil_append, List.cons_append, List.cons.injEq] at h
      exact absurd h.1 (h1 c (by simp))
    | cons c2 t2 =>
      simp only [List.cons_append, List.cons.injEq] at h
      obtain ⟨hc, htail⟩ := h
      subst hc
      rw [ih t2 (fun x hx => h1 x (by simp [hx])) (fun x hx => h2 x (by simp [hx])) htail]

/-- Claim C9: the stored identifier is stable — a second get-or-create
pass over the storage left by the first returns the identical identifier
whatever fresh value the generator would now produce; the generator
never produces an empty (hence falsy) identifier; and two generator
calls whose random tokens differ (tokens drawn from the base-36
alphabet, which excludes `'_'`) produce different identifiers, so a
fresh tab gets an identifier different from another tab's. -/
theorem c9_session_identity :
    (∀ stored fresh1 fresh2, fresh1 ≠ "" →
      (sessionIdInit (sessionIdInit stored fresh1).2 fresh2).1
        = (sessionIdInit stored fresh1).1) ∧
    (∀ r t, generateSessionId r t ≠ "") ∧
    (∀ r1 t1 r2 t2 : _, (∀ c ∈ (r1 : String).data, c ≠ '_') → (∀ c ∈ (r2 : String).data, c ≠ '_') →
      r1 ≠ r2 → generateSessionId r1 t1 ≠ generateSessionId r2 t2) := by
  refine ⟨?_, ?_, ?_⟩
  · intro stored fresh1 fresh2 hf
    cases stored with
    | none => simp [sessionIdInit, hf]
    | some s =>
      by_cases hs : s = ""
      · simp [sessionIdInit, hs, hf]
      · simp [sessionIdInit, hs]
  · intro r t h
    have hd := congrArg String.data h
    simp [generateSessionId, String.data_append] at hd
  · intro r1 t1 r2 t2 hr1 hr2 hne heq
    apply hne
    have hd := congrArg String.data heq
    simp only [generateSessionId, String.data_append, List.append_assoc,
      List.singleton_append] at hd
    have hd2 := List.append_cancel_left hd
    exact congrArg String.mk (underscoreSplit _ _ _ _ hr1 hr2 hd2)

/-- Witness for C9 at concrete inputs: a stored identifier survives a
second pass, and two distinct random tokens give distinct identifiers. -/
theorem c9_session_identity_witness :
    (sessionIdInit (sessionIdInit none (generateSessionId "abc123def" 1700)).2 "other").1
      = (sessionIdInit none (generateSessionId "abc123def" 1700)).1 ∧
    generateSessionId "abc123def" 1700 ≠ "" ∧
    generateSessionId "abc123def" 1700 ≠ generateSessionId "xyz987abc" 1700 := by
  refine ⟨c9_session_identity.1 none _ "other" ?_, c9_session_identity.2.1 "abc123def" 1700,
    c9_session_identity.2.2 "abc123def" 1700 "xyz987abc" 1700 ?_ ?_ ?_⟩
  · exact c9_session_identity.2.1 "abc123def" 1700
  · decide
  · decide
  · decide

theorem splitOnChar_single (sep : Char) (l : List Char) (h : sep ∉ l) :
    splitOnChar sep l = [l] := by
  induction l with
  | nil => rfl
  | cons c rest ih =>
    have hc : c ≠ sep := fun hh => h (by simp [hh])
    have hrest : sep ∉ rest := fun hh => h (by simp [hh])
    simp [splitOnChar, hc, ih hrest]

theorem headerLine_id (l : List Char) (h : l.head? ≠ some '#') : headerLine l = l := by
  cases l with
  | nil => rfl
  | cons c t =>
    have hc : c ≠ '#' := fun hh => h (by simp [hh])
    simp [headerLine, hc]

theorem bulletLine_id (l : List Char) (h : l.head? ≠ some '-') : bulletLine l = l := by
  cases l with
  | nil => rfl
  | cons c t =>
    have hc : c ≠ '-' := fun hh => h (by simp [hh])
    simp [bulletLine, hc]

theorem boldGo_id (fuel : Nat) (l : List Char) (h : '*' ∉ l) : boldGo fuel l = l := by
  induction fuel generalizing l with
  | zero => rfl
  | succ n ih =>
    cases l with
    | nil => rfl
    | cons c rest =>
      have hc : c ≠ '*' := fun hh => h (by simp [hh])
      have hrest : '*' ∉ rest := fun hh => h (by simp [hh])
      simp [boldGo, hc, ih rest hrest]

theorem splitDoubleNl_single (l : List Char) (h : '\n' ∉ l) : splitDoubleNl l = [l] := by
  induction l with
  | nil => rfl
  | cons c rest ih =>
    have hc : c ≠ '\n' := fun hh => h (by simp [hh])
    have hrest : '\n' ∉ rest := fun hh => h (by simp [hh])
    rw [splitDoubleNl.eq_def]
    simp only [if_neg hc, ih hrest]

theorem replaceNlBr_id (l : List Char) (h : '\n' ∉ l) : replaceNlBr l = l := by
  induction l with
  | nil => rfl
  | cons c rest ih =>
    have hc : c ≠ '\n' := fun hh => h (by simp [hh])
    have hrest : '\n' ∉ rest := fun hh => h (by simp [hh])
    simp [replaceNlBr, hc, ih hrest]

theorem intercalate_singleton (sep x : List Char) : List.intercalate sep [x] = x := by
  simp [List.intercalate]

/-- A text with no line break, no asterisk, and no leading `#` or `-`
matches none of the five transform patterns. -/
def plainText (s : String) : Prop :=
  '*' ∉ s.data ∧ '\n' ∉ s.data ∧ s.data.head? ≠ some '#' ∧ s.data.head? ≠ some '-'

theorem formatBotText_plain (text : String) (h1 : '*' ∉ text.data) (h2 : '\n' ∉ text.data)
    (h3 : text.data.head? ≠ some '#') (h4 : text.data.head? ≠ some '-') :
    formatBotText text = "<p>" ++ text ++ "</p>" := by
  have hsplit := splitOnChar_single '\n' text.data h2
  have hh : headerStep text = text := by
    unfold headerStep perLineMap
    rw [hsplit, List.map_singleton, headerLine_id text.data h3, intercalate_singleton]
  have hbold : boldStep text = text := by
    unfold boldStep
    rw [boldGo_id _ _ h1]
  have hbul : bulletStep text = text := by
    unfold bulletStep perLineMap
    rw [hsplit, List.map_singleton, bulletLine_id text.data h4, intercalate_singleton]
  have hpar : paragraphStep text = text := by
    unfold paragraphStep
    rw [splitDoubleNl_single text.data h2, intercalate_singleton]
  have hbr : lineBreakStep text = text := by
    unfold lineBreakStep
    rw [replaceNlBr_id text.data h2]
  rw [formatBotText, hh, hbold, hbul, hpar, hbr]

/-- Claim C4: bot ("assistant") text is rendered through exactly the five
transforms in the source's fixed order — headers, then bold, then
bullets, then paragraph breaks, then line breaks — each behaving as
claimed on its pattern; the worked example renders with emphasis around
`Hi`, a paragraph break before the bullet, and a bullet glyph before
`item`; and every other sender's text is rendered literally with no
markup interpretation. -/
theorem c4_bot_formatting (text : String) :
    (renderMessage text "bot").html =
      some ("<p>" ++ lineBreakStep (paragraphStep (bulletStep (boldStep (headerStep text))))
        ++ "</p>") ∧
    headerStep "# Title" = "<strong>Title</strong>" ∧
    boldStep "a **x** b" = "a <strong>x</strong> b" ∧
    bulletStep "- item" = "• item" ∧
    paragraphStep "a\n\nb" = "a</p><p>b" ∧
    lineBreakStep "a\nb" = "a<br>b" ∧
    formatBotText "**Hi** there\n\n- item" = "<p><strong>Hi</strong> there</p><p>• item</p>" ∧
    (∀ sender, sender ≠ "bot" → renderMessage text sender = ⟨sender, none, some text⟩) := by
  refine ⟨rfl, by decide, by decide, by decide, by decide, by decide, by decide, ?_⟩
  intro sender hs
  simp [renderMessage, hs]

/-- Witness for C4: the worked example as a bot message, and the same
text rendered literally for the user sender. -/
theorem c4_bot_formatting_witness :
    formatBotText "**Hi** there\n\n- item" = "<p><strong>Hi</strong> there</p><p>• item</p>" ∧
    renderMessage "**Hi** there\n\n- item" "user" =
      ⟨"user", none, some "**Hi** there\n\n- item"⟩ :=
  ⟨(c4_bot_formatting "**Hi** there\n\n- item").2.2.2.2.2.2.1,
   (c4_bot_formatting "**Hi** there\n\n- item").2.2.2.2.2.2.2 "user" (by decide)⟩

/-- Claim C10: the bot formatter performs no markup escaping — any text
matching none of the five transform patterns is passed verbatim into the
markup assigned via `innerHTML`, so `<` and `>` reach the markup
uninterpreted as text (e.g. a literal `<b>` tag survives into the
generated markup) — whereas every other sender's text is set as plain
text content, not markup. -/
theorem c10_no_escaping (text : String) :
    (plainText text → formatBotText text = "<p>" ++ text ++ "</p>") ∧
    formatBotText "x <b>alert(1)</b> y" = "<p>x <b>alert(1)</b> y</p>" ∧
    (renderMessage text "bot").html = some (formatBotText text) ∧
    (renderMessage text "bot").plain = none ∧
    (∀ sender, sender ≠ "bot" →
      (renderMessage text sender).plain = some text ∧
      (renderMessage text sender).html = none) := by
  refine ⟨?_, by decide, rfl, rfl, ?_⟩
  · rintro ⟨h1, h2, h3, h4⟩
    exact formatBotText_plain text h1 h2 h3 h4
  · intro sender hs
    simp [renderMessage, hs]

/-- Witness for C10: a bot text carrying a literal `<b>` tag is inserted
verbatim into the markup, while the same text for the error sender stays
plain text. -/
theorem c10_no_escaping_witness :
    formatBotText "x <b>alert(1)</b> y" = "<p>x <b>alert(1)</b> y</p>" ∧
    (renderMessage "x <b>alert(1)</b> y" "error").plain = some "x <b>alert(1)</b> y" :=
  ⟨((c10_no_escaping "x <b>alert(1)</b> y").1 (by constructor <;> decide)).trans rfl,
   ((c10_no_escaping "x <b>alert(1)</b> y").2.2.2.2 "error" (by decide)).1⟩
